import Mathlib

/-!
Verification of the cronologia timeline-video generator core against its
specification. The Python modules under src/ are shallowly embedded:
pure computations become Lean functions, effectful collaborator calls
become oracle fields of an environment record, and Python exceptions
become an explicit error type threaded through Except.
-/

namespace Cronologia

/-- Python-level exceptions that the embedded code can raise. -/
inductive PyError : Type
  | typeError (msg : String)
  | valueError (msg : String)
  | runtimeError (msg : String)
  | zeroDivisionError
deriving DecidableEq, Repr

deriving instance DecidableEq for Except

/-! ## Caption Layout: wrap_text (graphics.py lines 292-310)

wrap_text delegates the wrapping to Python's textwrap.fill with the
default TextWrapper configuration (drop_whitespace, break_long_words and
break_on_hyphens on, no indents, no max_lines). The wrapper is embedded
below for texts whose only whitespace is the plain space character and
which contain no hyphens: for such texts the chunk splitter produces
maximal runs of spaces and non-spaces and the hyphen branch of the
long-word handler is dead, so the embedding follows CPython's
textwrap._wrap_chunks line by line. -/

/-- One chunk of text as produced by textwrap's splitter: a maximal run of
spaces or a maximal run of non-space characters. -/
abbrev Chunk := List Char

/-- Chunk consists entirely of spaces (textwrap's chunk.strip() == '' test
for the modelled texts). -/
def wsChunk (c : Chunk) : Bool := c.all (fun ch => ch == ' ')

/-- Splits a character list into maximal runs of spaces and non-spaces,
mirroring textwrap's word separation for the modelled texts. -/
def splitRuns : List Char → List Chunk
  | [] => []
  | c :: rest =>
    match splitRuns rest with
    | [] => [[c]]
    | [] :: gs => [c] :: gs
    | (d :: g) :: gs =>
      if (c == ' ') == (d == ' ') then (c :: d :: g) :: gs
      else [c] :: (d :: g) :: gs

/-- Sum over the chunks of length plus one: a bound on the number of outer
iterations textwrap's wrapping loop performs for a positive width, used as
fuel below. -/
def chunkCost (cs : List Chunk) : Nat := (cs.map (fun c => c.length + 1)).sum

/-- Inner while-loop of textwrap._wrap_chunks: greedily moves chunks onto
the current line while the accumulated length stays within the width.
Returns the chunks taken for the line and the remaining chunks. -/
def takeFits (width : Nat) : Nat → List Chunk → List Chunk × List Chunk
  | _, [] => ([], [])
  | curLen, c :: cs =>
    if curLen + c.length ≤ width then
      let p := takeFits width (curLen + c.length) cs
      (c :: p.1, p.2)
    else ([], c :: cs)

/-- Leading-whitespace drop at the top of each outer iteration: a whitespace
chunk at the front is discarded unless no line has been emitted yet. -/
def dropLeadingWs (first : Bool) : List Chunk → List Chunk
  | [] => []
  | c :: cs => if wsChunk c && !first then cs else c :: cs

/-- textwrap._handle_long_word with break_long_words on and no hyphens in
the chunk: when the next chunk is longer than the whole width, the current
line absorbs its first width - curLen characters and the remainder stays
in the chunk stream. -/
def splitLong (width curLen : Nat) (cur rest : List Chunk) : List Chunk × List Chunk :=
  match rest with
  | [] => (cur, [])
  | c :: cs =>
    if width < c.length then
      (cur ++ [c.take (width - curLen)], c.drop (width - curLen) :: cs)
    else (cur, c :: cs)

/-- Trailing-whitespace drop: the single conditional deletion of the last
chunk of the line when it is all whitespace. -/
def dropTrailingWs (cur : List Chunk) : List Chunk :=
  match cur.getLast? with
  | some l => if wsChunk l then cur.dropLast else cur
  | none => cur

/-- One iteration of the outer loop of textwrap._wrap_chunks: drop a leading
whitespace chunk when a line was already emitted, fill the line, split an
over-long chunk at the remaining space, drop a trailing whitespace chunk.
Returns the chunks forming the line (empty means no line is emitted) and
the remaining chunks. -/
def wrapStep (width : Nat) (first : Bool) (chunks : List Chunk) : List Chunk × List Chunk :=
  let chunks1 := dropLeadingWs first chunks
  let p := takeFits width 0 chunks1
  let q := splitLong width ((p.1.map List.length).sum) p.1 p.2
  (dropTrailingWs q.1, q.2)

/-- Outer loop of textwrap._wrap_chunks, driven by fuel; one unit of fuel is
consumed per iteration, and chunkCost of the chunk list bounds the number
of iterations whenever the width is positive (every iteration consumes a
chunk or shortens the front chunk, see wrapStep_cost). Lines are returned
as chunk lists; joining a line's chunks gives its text. -/
def wrapLoopF (width : Nat) : Nat → Bool → List Chunk → List (List Chunk)
  | 0, _, _ => []
  | _ + 1, _, [] => []
  | fuel + 1, first, c :: cs =>
    let s := wrapStep width first (c :: cs)
    if s.1.isEmpty then wrapLoopF width fuel first s.2
    else s.1 :: wrapLoopF width fuel false s.2

/-- Lines produced by textwrap.TextWrapper(width).wrap for the modelled
texts, each line as its chunk list. -/
def wrapChunkLines (width : Nat) (text : List Char) : List (List Chunk) :=
  wrapLoopF width (chunkCost (splitRuns text)) true (splitRuns text)

/-- textwrap.fill(text, width): the wrapped lines joined by newlines; a
non-positive width raises ValueError before any wrapping happens. -/
def textwrap_fill (width : Nat) (text : List Char) : Except PyError (List Char) :=
  if width = 0 then .error (.valueError "invalid width 0 (must be > 0)")
  else .ok (List.intercalate ['\n'] ((wrapChunkLines width text).map List.flatten))

/-- Per-line character budget computed by wrap_text: min(25,
int(img_clip_width / 15)). -/
def max_chars_per_line (img_clip_width : Nat) : Nat := min 25 (img_clip_width / 15)

/-- wrap_text from graphics.py: wrap the caption at the character budget,
count lines as newline count plus one, and shrink the default font size 50
by 5 per line beyond 5 down to a floor of 20. -/
def wrap_text (text : List Char) (img_clip_width : Nat) : Except PyError (List Char × Nat) :=
  match textwrap_fill (max_chars_per_line img_clip_width) text with
  | .error e => .error e
  | .ok wrapped_text =>
    let num_lines := wrapped_text.count '\n' + 1
    let default_font_size := 50
    let adjusted_font_size :=
      if 5 < num_lines then max 20 (default_font_size - (num_lines - 5) * 5)
      else default_font_size
    .ok (wrapped_text, adjusted_font_size)

/-- Words of a text: its non-whitespace chunks. -/
def textWords (text : List Char) : List Chunk :=
  (splitRuns text).filter (fun c => !(wsChunk c))

/-- Property C7 claims of the wrapped output at a given character budget:
every chunk of every wrapped line is either whitespace or one of the whole
words of the input, i.e. lines break only at word boundaries and no word
is ever split across lines. -/
def linesRespectWords (text : List Char) (budget : Nat) : Prop :=
  ∀ line ∈ wrapChunkLines budget text, ∀ c ∈ line,
    wsChunk c = true ∨ c ∈ textWords text

instance (text : List Char) (budget : Nat) : Decidable (linesRespectWords text budget) := by
  unfold linesRespectWords
  infer_instance

/-- The 40-character caption used to check the layout example. -/
def caption40 : List Char := String.data "uninterrupted spans of timeline history!"

/-! ## Media assembly: graphics.py

Effectful moviepy and filesystem operations are abstracted by a MediaEnv
record of oracles fixing one run's external behavior; the control flow and
the arithmetic of the graphics functions are translated directly. -/

/-- Symbolic moviepy audio clips as assembled by the graphics module: a
file-backed clip with its native duration, a generated silence, or a
concatenation of clips. -/
inductive AClip : Type
  | source (path : String) (duration : ℚ)
  | silence (duration : ℚ)
  | concat (parts : List AClip)

mutual

/-- Duration of a symbolic audio clip; concatenation sums its parts. -/
def AClip.duration : AClip → ℚ
  | .source _ d => d
  | .silence d => d
  | .concat ps => AClip.durationSum ps

/-- Sum of the durations of a list of clips. -/
def AClip.durationSum : List AClip → ℚ
  | [] => 0
  | c :: cs => AClip.duration c + AClip.durationSum cs

end

/-- Abstraction of the effectful collaborators the graphics functions use:
loading an audio file yields its native duration or raises, loading an
image (or the placeholder written in its stead when the file is missing)
yields a frame width or raises, rendering an output file succeeds or
raises, a file exists or not, and opening an existing video clip succeeds
or raises. -/
structure MediaEnv : Type where
  loadAudio : String → Except PyError ℚ
  loadImageW : String → Except PyError Nat
  renderOk : String → Bool
  fsExists : String → Bool
  loadVideoOk : String → Bool

/-- Timing and audio structure assembled inside create_video_clip
(graphics.py lines 48-97) for a native audio duration d and k images:
audio_duration = d + 1.0 (0.5 s of silence at each end), per-image
duration = audio_duration / k, the chained image video spans k times the
per-image duration, the caption overlay lasts audio_duration, the
composite's duration is the maximum of the two, and the audio track is
concatenate_audioclips([silence(0.5), audio, silence(0.5)]). -/
structure ClipBuild : Type where
  video_duration : ℚ
  image_duration : ℚ
  audio_track : AClip

/-- Numeric core of create_video_clip for audio duration d and k images. -/
def create_video_clip_build (audio_path : String) (d : ℚ) (k : ℕ) : ClipBuild :=
  let audio_duration := d + 1
  let image_duration := audio_duration / (k : ℚ)
  { video_duration := max ((k : ℚ) * image_duration) audio_duration
    image_duration := image_duration
    audio_track := .concat [.silence (1/2), .source audio_path d, .silence (1/2)] }

/-- Body of create_video_clip's try block (graphics.py lines 43-111): load
the audio, pad its duration by 1.0 s, divide by the number of images
(ZeroDivisionError for an empty list), load every image (a placeholder is
written first when the file is missing; a load failure raises), lay out
the caption against the width of the last loaded image clip, and render.
Any raised exception propagates out of this body to the handler. -/
def create_video_clip_body (env : MediaEnv) (image_paths : List String)
    (audio_path : String) (caption : String) (output_path : String) :
    Except PyError String :=
  match env.loadAudio audio_path with
  | .error e => .error e
  | .ok d =>
    if image_paths.isEmpty then .error .zeroDivisionError
    else
      match image_paths.mapM env.loadImageW with
      | .error e => .error e
      | .ok widths =>
        match widths.getLast? with
        | none => .error .zeroDivisionError
        | some w =>
          match wrap_text caption.data w with
          | .error e => .error e
          | .ok _ =>
            let _build := create_video_clip_build audio_path d image_paths.length
            if env.renderOk output_path then .ok output_path
            else .error (.runtimeError "write_videofile failed")

/-- create_video_clip from graphics.py: run the try body; on any exception
log and return the intended output path anyway. -/
def create_video_clip (env : MediaEnv) (image_paths : List String)
    (audio_path caption output_path : String) : String :=
  match create_video_clip_body env image_paths audio_path caption output_path with
  | .ok p => p
  | .error _ => output_path

/-- Body of create_intro_clip's try block (graphics.py lines 138-205): same
shape as create_video_clip's body, except that the caption width comes
from a fresh clip of the first cover image. -/
def create_intro_clip_body (env : MediaEnv) (title : String)
    (cover_image_paths : List String) (audio_path output_path : String) :
    Except PyError String :=
  match env.loadAudio audio_path with
  | .error e => .error e
  | .ok _d =>
    if cover_image_paths.isEmpty then .error .zeroDivisionError
    else
      match cover_image_paths.mapM env.loadImageW with
      | .error e => .error e
      | .ok _widths =>
        match cover_image_paths.head? with
        | none => .error .zeroDivisionError
        | some first_path =>
          match env.loadImageW first_path with
          | .error e => .error e
          | .ok w =>
            match wrap_text title.data w with
            | .error e => .error e
            | .ok _ =>
              if env.renderOk output_path then .ok output_path
              else .error (.runtimeError "write_videofile failed")

/-- create_intro_clip from graphics.py: run the try body; on any exception
log and return the intended output path anyway. -/
def create_intro_clip (env : MediaEnv) (title : String)
    (cover_image_paths : List String) (audio_path output_path : String) : String :=
  match create_intro_clip_body env title cover_image_paths audio_path output_path with
  | .ok p => p
  | .error _ => output_path

/-- Body of combine_video_clips' try block (graphics.py lines 225-256): keep
the clip paths that exist on disk (a missing path is only logged), raise
when opening a surviving clip fails, raise ValueError("No valid video
clips found") when no clip survives, then concatenate and render. -/
def combine_video_clips_body (env : MediaEnv) (clip_paths : List String)
    (output_path : String) : Except PyError String :=
  match clip_paths.find? (fun p => env.fsExists p && !(env.loadVideoOk p)) with
  | some _ => .error (.runtimeError "failed to open clip")
  | none =>
    let clips := clip_paths.filter (fun p => env.fsExists p)
    if clips.isEmpty then .error (.valueError "No valid video clips found")
    else if env.renderOk output_path then .ok output_path
    else .error (.runtimeError "write_videofile failed")

/-- combine_video_clips from graphics.py: the try body wrapped in a
catch-all except that logs and returns the output path, so the function
never lets an exception reach its caller. -/
def combine_video_clips (env : MediaEnv) (clip_paths : List String)
    (output_path : String) : Except PyError String :=
  match combine_video_clips_body env clip_paths output_path with
  | .ok p => .ok p
  | .error _ => .ok output_path

/-! ## Pipeline coordinator: main.py, with gemini.py and tts.py collaborators -/

/-- One timeline stage as parsed from the generator's JSON. -/
structure Stage : Type where
  order : Nat
  name : String
  description : String
deriving DecidableEq

/-- Timeline value available after generate_timeline_stages: a title and the
stage list — the success path validates both keys are present and the
except path substitutes the hard-coded one-stage fallback, so the
coordinator always receives both fields. -/
structure Timeline : Type where
  title : String
  stages : List Stage

/-- Abstraction of the generative collaborators (Gemini text and image
models, Google TTS) as they look from the pipeline: what each external
call produces during one run. Collaborators absorb their own errors, so
timeline, voiceover and genImages carry already-degraded plain values,
while promptsRaw exposes the parsed JSON list or the exception that
generate_image_prompts' handler catches. -/
structure PipelineEnv : Type where
  media : MediaEnv
  timeline : String → Timeline
  voiceover : String → Stage → List Stage → String
  promptsRaw : String → Stage → List Stage → String → Except PyError (List String)
  genImages : List String → String → String → List String
  ttsOk : String → String → Bool

/-- generate_audio from tts.py: the try block synthesizes and writes the
file and returns output_path; the catch-all except also returns
output_path, so the call always yields its output_path argument. -/
def generate_audio (env : PipelineEnv) (text output_path : String) : String :=
  match (if env.ttsOk text output_path then Except.ok output_path
         else Except.error (PyError.runtimeError "speech synthesis failed")) with
  | .ok p => p
  | .error _ => output_path

/-- Filler prompt appended by generate_image_prompts (gemini.py line 491)
when the model returned fewer than 3 prompts. -/
def filler_prompt (topic stage_name : String) : String :=
  "Historical illustration of " ++ topic ++ " during the " ++ stage_name ++ " period."

/-- Count normalization at the end of generate_image_prompts' try block
(gemini.py lines 486-494): keep the list when it has exactly 3 prompts,
append the filler prompt while it has fewer, truncate to the first 3 when
it has more. -/
def normalize_image_prompts (topic stage_name : String)
    (image_prompts : List String) : List String :=
  if image_prompts.length = 3 then image_prompts
  else if image_prompts.length < 3 then
    image_prompts ++ List.replicate (3 - image_prompts.length) (filler_prompt topic stage_name)
  else image_prompts.take 3

/-- generate_image_prompts from gemini.py: parse the model response and
normalize the prompt count to 3; on any exception return the three generic
fallback prompts from the except block. -/
def generate_image_prompts (env : PipelineEnv) (topic : String) (st : Stage)
    (all_stages : List Stage) (voiceover_script : String) : List String :=
  match env.promptsRaw topic st all_stages voiceover_script with
  | .ok ps => normalize_image_prompts topic st.name ps
  | .error _ =>
    ["Historical illustration of " ++ topic ++ " during the " ++ st.name ++ " period.",
     "Detailed visual representation of " ++ st.name ++ " in the evolution of " ++ topic ++ ".",
     "Historical scene showing key aspects of " ++ topic ++ " during " ++ st.name ++ "."]

/-- Placeholder fallback in the stage loop of generate_timeline_video
(main.py lines 108-115): when generate_images returned fewer than 3 paths,
the partial result is discarded and replaced by the 3 placeholder image
paths at which create_placeholder_image just wrote fresh placeholders. -/
def fix_stage_images (image_dir execution_id : String) (stage_order : Nat)
    (image_paths : List String) : List String :=
  if image_paths.length < 3 then
    (List.range 3).map (fun i =>
      image_dir ++ "/" ++ execution_id ++ "_stage" ++ toString stage_order
        ++ "_" ++ toString (i + 1) ++ ".jpg")
  else image_paths

/-- Python value passed positionally at a call site modelled here: the
coordinator passes strings and lists of strings. -/
inductive PyVal : Type
  | str (s : String)
  | strList (l : List String)
deriving DecidableEq

/-- Python positional call of create_intro_clip(title, cover_image_paths,
audio_path, output_path): all four parameters are required positional
parameters without defaults, so a call with any other number of positional
arguments raises TypeError before the body runs; with four suitably typed
arguments the function itself runs. -/
def call_create_intro_clip (env : MediaEnv) (args : List PyVal) : Except PyError String :=
  if args.length = 4 then
    match args with
    | [.str title, .strList covers, .str audio_path, .str output_path] =>
      .ok (create_intro_clip env title covers audio_path output_path)
    | _ => .error (.typeError "argument does not support the expected operations")
  else
    .error (.typeError "create_intro_clip() missing 1 required positional argument: output_path")

/-- generate_timeline_video from main.py (lines 53-147): request the
timeline, run the stage loop (script, audio, prompts, images, placeholder
substitution, clip) — the loop never raises since every callee absorbs its
own errors and create_video_clip always returns its output path — then
call create_intro_clip with the three positional arguments (title,
cover_path, intro output path) written at lines 130-134, prepend the intro
path to the stage clips, and concatenate. The surrounding try/except logs
and re-raises, so any exception escapes to the caller unchanged. -/
def generate_timeline_video (env : PipelineEnv)
    (base_dir topic execution_id : String) : Except PyError String :=
  let image_dir := base_dir ++ "/media/image/" ++ execution_id
  let audio_dir := base_dir ++ "/media/audio/" ++ execution_id
  let video_dir := base_dir ++ "/media/video/" ++ execution_id
  let timeline_data := env.timeline topic
  let title := timeline_data.title
  let stages := timeline_data.stages
  let stage_clips := stages.map (fun st =>
    let voiceover_script := env.voiceover topic st stages
    let audio_path := generate_audio env voiceover_script
      (audio_dir ++ "/" ++ execution_id ++ "_stage" ++ toString st.order ++ ".mp3")
    let image_prompts := generate_image_prompts env topic st stages voiceover_script
    let image_paths := fix_stage_images image_dir execution_id st.order
      (env.genImages image_prompts image_dir (execution_id ++ "_stage" ++ toString st.order))
    create_video_clip env.media image_paths audio_path st.name
      (video_dir ++ "/" ++ execution_id ++ "_stage" ++ toString st.order ++ ".mp4"))
  let cover_path := base_dir ++ "/media/image/cover.jpg"
  match call_create_intro_clip env.media
      [.str title, .str cover_path,
       .str (video_dir ++ "/" ++ execution_id ++ "_intro.mp4")] with
  | .error e => .error e
  | .ok intro_clip_path =>
    let all_clips := intro_clip_path :: stage_clips
    let final_video_path := video_dir ++ "/" ++ execution_id ++ "_final.mp4"
    combine_video_clips env.media all_clips final_video_path

/-- Media environment in which no file exists, every load succeeds and
every render succeeds; used to evaluate the embedded functions on concrete
inputs. -/
def emptyFsEnv : MediaEnv :=
  { loadAudio := fun _ => .ok 1
    loadImageW := fun _ => .ok 1080
    renderOk := fun _ => true
    fsExists := fun _ => false
    loadVideoOk := fun _ => true }

/-- Placeholder image paths the Stage Processor substitutes, named
{execution_id}_stage{order}_{n}.jpg for n = 1..3 inside the run's image
directory. -/
def claimed_placeholder_paths (image_dir execution_id : String)
    (stage_order : Nat) : List String :=
  [image_dir ++ "/" ++ execution_id ++ "_stage" ++ toString stage_order
     ++ "_" ++ toString (1 : Nat) ++ ".jpg",
   image_dir ++ "/" ++ execution_id ++ "_stage" ++ toString stage_order
     ++ "_" ++ toString (2 : Nat) ++ ".jpg",
   image_dir ++ "/" ++ execution_id ++ "_stage" ++ toString stage_order
     ++ "_" ++ toString (3 : Nat) ++ ".jpg"]

/-- Concrete one-stage pipeline environment used to evaluate the
coordinator on a concrete run. -/
def sampleEnv : PipelineEnv :=
  { media := emptyFsEnv
    timeline := fun topic =>
      { title := "Timeline of " ++ topic
        stages := [{ order := 1, name := "History", description := "An overview." }] }
    voiceover := fun _ _ _ => "A short narration."
    promptsRaw := fun _ _ _ _ => .ok ["p1", "p2", "p3"]
    genImages := fun _ _ _ => []
    ttsOk := fun _ _ => true }

/-! ## Theorems -/

/-- Helper: whatever create_video_clip_body returns on success is the
output_path argument. -/
lemma create_video_clip_body_ok (env : MediaEnv) (image_paths : List String)
    (audio_path caption output_path p : String)
    (h : create_video_clip_body env image_paths audio_path caption output_path
      = .ok p) : p = output_path := by
  unfold create_video_clip_body at h
  repeat' split at h
  all_goals simp_all

/-- C10: create_video_clip never raises — every exception of the synthesis
body is caught by the catch-all handler, and in both the success and the
failure branch the function returns the intended output path. -/
theorem create_video_clip_never_raises (env : MediaEnv) (image_paths : List String)
    (audio_path caption output_path : String) :
    create_video_clip env image_paths audio_path caption output_path = output_path := by
  unfold create_video_clip
  split
  next p h => exact create_video_clip_body_ok _ _ _ _ _ _ h
  next => rfl

/-- C3: every run of generate_timeline_video completes the stage loop (all
callees absorb their errors) and then calls create_intro_clip with three
positional arguments although its signature requires four, so the
coordinator raises TypeError at the intro step for every environment and
never reaches concatenation or returns a final video path. -/
theorem intro_call_arity_error (env : PipelineEnv)
    (base_dir topic execution_id : String) :
    generate_timeline_video env base_dir topic execution_id
      = .error (.typeError
          "create_intro_clip() missing 1 required positional argument: output_path") := rfl

/-- C1 (code bug): evaluating the coordinator on a concrete one-stage run
shows it raises TypeError at the intro-clip step instead of passing
[intro] ++ stage clips to the Video Concatenator and returning the final
video path as the specification requires. -/
theorem generate_timeline_video_run_raises :
    generate_timeline_video sampleEnv "/app" "Rome" "run1"
      = .error (.typeError
          "create_intro_clip() missing 1 required positional argument: output_path") := rfl

/-- C2 (code bug): on an input whose single clip path does not exist,
combine_video_clips' body raises ValueError("No valid video clips found"),
but the function's own catch-all except swallows it and returns the output
path normally, so no error reaches the caller. -/
theorem combine_video_clips_swallows_no_input :
    combine_video_clips_body emptyFsEnv ["clipA.mp4"] "final.mp4"
        = .error (.valueError "No valid video clips found") ∧
    combine_video_clips emptyFsEnv ["clipA.mp4"] "final.mp4" = .ok "final.mp4" :=
  ⟨rfl, rfl⟩

/-- C4: for positive audio duration d and at least one image, the composite
clip's duration is exactly d plus two half-second pads, each image is shown
for (d + 1) / k, and the audio track is silence(0.5) ++ audio ++
silence(0.5) in that exact order, whose total duration matches the visual
duration. -/
theorem clip_synthesizer_duration_invariant (audio_path : String) (d : ℚ) (k : ℕ)
    (hd : 0 < d) (hk : 1 ≤ k) :
    (create_video_clip_build audio_path d k).video_duration = d + 2 * (1 / 2) ∧
    (create_video_clip_build audio_path d k).image_duration = (d + 1) / (k : ℚ) ∧
    (create_video_clip_build audio_path d k).audio_track
      = AClip.concat [.silence (1 / 2), .source audio_path d, .silence (1 / 2)] ∧
    ((create_video_clip_build audio_path d k).audio_track).duration
      = d + 2 * (1 / 2) := by
  have hk0 : (k : ℚ) ≠ 0 := Nat.cast_ne_zero.mpr (by omega)
  refine ⟨?_, rfl, rfl, ?_⟩
  · show max ((k : ℚ) * ((d + 1) / (k : ℚ))) (d + 1) = d + 2 * (1 / 2)
    have h1 : (k : ℚ) * ((d + 1) / (k : ℚ)) = d + 1 := by field_simp
    rw [h1, max_self]
    norm_num
  · show AClip.duration (.concat [.silence (1 / 2), .source audio_path d, .silence (1 / 2)])
      = d + 2 * (1 / 2)
    simp [AClip.duration, AClip.durationSum]
    ring

/-- Witness for C4 at audio duration 2 seconds and 3 images. -/
theorem clip_synthesizer_duration_invariant_witness :
    (0 : ℚ) < 2 ∧ (1 ≤ 3 ∧
      ((create_video_clip_build "audio.mp3" 2 3).video_duration = 2 + 2 * (1 / 2) ∧
       (create_video_clip_build "audio.mp3" 2 3).image_duration = (2 + 1) / ((3 : ℕ) : ℚ) ∧
       (create_video_clip_build "audio.mp3" 2 3).audio_track
         = AClip.concat [.silence (1 / 2), .source "audio.mp3" 2, .silence (1 / 2)] ∧
       ((create_video_clip_build "audio.mp3" 2 3).audio_track).duration
         = 2 + 2 * (1 / 2))) :=
  ⟨by norm_num, by norm_num,
    clip_synthesizer_duration_invariant "audio.mp3" 2 3 (by norm_num) (by norm_num)⟩

/-- C5: the normalization in generate_image_prompts always returns the
first min(len, 3) original prompts followed by exactly enough copies of
the filler prompt, hence a list of length exactly 3, for every generator
output list. -/
theorem image_prompt_normalization (topic stage_name : String) (ps : List String) :
    normalize_image_prompts topic stage_name ps
      = ps.take 3 ++ List.replicate (3 - ps.length) (filler_prompt topic stage_name) ∧
    (normalize_image_prompts topic stage_name ps).length = 3 := by
  have heq : normalize_image_prompts topic stage_name ps
      = ps.take 3 ++ List.replicate (3 - ps.length) (filler_prompt topic stage_name) := by
    unfold normalize_image_prompts
    split
    next h3 => rw [List.take_of_length_le (by omega)]; simp [show 3 - ps.length = 0 by omega]
    next h3 =>
      split
      next hlt => rw [List.take_of_length_le (by omega)]
      next hge => simp [show 3 - ps.length = 0 by omega]
  refine ⟨heq, ?_⟩
  rw [heq]
  simp [List.length_take]
  omega

/-- C6: whenever the image generator returned fewer than 3 paths, the Stage
Processor passes on exactly the 3 freshly created placeholder paths —
never a mix with the partial results. -/
theorem stage_processor_placeholder_substitution (image_dir execution_id : String)
    (stage_order : Nat) (image_paths : List String) (h : image_paths.length < 3) :
    fix_stage_images image_dir execution_id stage_order image_paths
      = claimed_placeholder_paths image_dir execution_id stage_order ∧
    (fix_stage_images image_dir execution_id stage_order image_paths).length = 3 := by
  unfold fix_stage_images claimed_placeholder_paths
  rw [if_pos h]
  exact ⟨rfl, rfl⟩

/-- Witness for C6 at a one-path generator result for stage 2 of run1. -/
theorem stage_processor_placeholder_substitution_witness :
    (["gen1.jpg"] : List String).length < 3 ∧
      (fix_stage_images "/app/media/image/run1" "run1" 2 ["gen1.jpg"]
          = claimed_placeholder_paths "/app/media/image/run1" "run1" 2 ∧
        (fix_stage_images "/app/media/image/run1" "run1" 2 ["gen1.jpg"]).length = 3) :=
  ⟨by decide, stage_processor_placeholder_substitution _ _ _ _ (by decide)⟩

/-! ## Caption Layout theorems (C7, C8, C9) -/

/-- C7 counterexample: a caption that is one 30-character word, laid out at
a 450-pixel width (character budget 25), is split mid-word by textwrap's
break_long_words default, so one wrapped line is a strict fragment of the
word rather than a sequence of whole words. -/
theorem wrap_text_splits_long_word :
    wrap_text (String.data "aaaaaaaaaaaaaaaaaaaaaaaaaaaaaa") 450
        = .ok (List.replicate 25 'a' ++ '\n' :: List.replicate 5 'a', 50) ∧
    ¬ linesRespectWords (String.data "aaaaaaaaaaaaaaaaaaaaaaaaaaaaaa")
        (max_chars_per_line 450) := by
  constructor
  · decide
  · decide

/-- C8 counterexample: at a 270-pixel width the character budget is
min(25, 270 / 15) = 18, and this 40-character caption wraps to 3 lines,
not the 2 lines the claim states. -/
theorem caption40_not_two_lines :
    (wrap_text caption40 270).map (fun r => r.1.count '\n' + 1) ≠ Except.ok 2 := by
  decide

/-- C8 amended: at 270 pixels the budget is 18 characters, the 40-character
caption wraps to 3 lines, and the font size stays at the default 50 since
3 is at or below the 5-line threshold. -/
theorem caption40_three_lines_default_font :
    max_chars_per_line 270 = 18 ∧
    wrap_text caption40 270
      = .ok (String.data "uninterrupted\nspans of timeline\nhistory!", 50) ∧
    (String.data "uninterrupted\nspans of timeline\nhistory!").count '\n' + 1 = 3 := by
  refine ⟨rfl, by decide, by decide⟩

/-- C9 counterexample: at a 14-pixel target width the character budget is
min(25, 14 / 15) = 0 and textwrap.fill raises ValueError, so wrap_text has
a failure mode on non-empty text, contrary to the claim that the only
degenerate input is empty text. -/
theorem wrap_text_raises_on_narrow_width :
    wrap_text (String.data "hello") 14
      = .error (.valueError "invalid width 0 (must be > 0)") := rfl

/-! ### Structural lemmas about the embedded wrapping loop -/

/-- takeFits partitions its input: the taken chunks followed by the rest
give back the original list. -/
lemma takeFits_append (width : Nat) : ∀ (curLen : Nat) (cs : List Chunk),
    (takeFits width curLen cs).1 ++ (takeFits width curLen cs).2 = cs := by
  intro curLen cs
  induction cs generalizing curLen with
  | nil => rfl
  | cons c cs ih =>
    simp only [takeFits]
    split
    next h => simp only [List.cons_append]; rw [ih]
    next h => rfl

/-- Chunks taken for the line come from the input. -/
lemma takeFits_subset_left (width curLen : Nat) (cs : List Chunk) :
    (takeFits width curLen cs).1 ⊆ cs := by
  intro x hx
  rw [← takeFits_append width curLen cs]
  exact List.mem_append_left _ hx

/-- Chunks left over come from the input. -/
lemma takeFits_subset_right (width curLen : Nat) (cs : List Chunk) :
    (takeFits width curLen cs).2 ⊆ cs := by
  intro x hx
  rw [← takeFits_append width curLen cs]
  exact List.mem_append_right _ hx

/-- A prefix of an all-space chunk is all spaces. -/
lemma wsChunk_take (c : Chunk) (n : Nat) (h : wsChunk c = true) :
    wsChunk (c.take n) = true := by
  simp only [wsChunk, List.all_eq_true] at h ⊢
  intro x hx
  exact h x (List.take_subset n c hx)

/-- A suffix of an all-space chunk is all spaces. -/
lemma wsChunk_drop (c : Chunk) (n : Nat) (h : wsChunk c = true) :
    wsChunk (c.drop n) = true := by
  simp only [wsChunk, List.all_eq_true] at h ⊢
  intro x hx
  exact h x (List.drop_subset n c hx)

/-- Dropping the trailing whitespace chunk keeps a subset of the line. -/
lemma dropTrailingWs_subset (cur : List Chunk) : dropTrailingWs cur ⊆ cur := by
  unfold dropTrailingWs
  split
  · split
    · exact (List.dropLast_sublist cur).subset
    · exact fun x hx => hx
  · exact fun x hx => hx

/-- Dropping the leading whitespace chunk keeps a subset of the chunks. -/
lemma dropLeadingWs_subset (first : Bool) (chunks : List Chunk) :
    dropLeadingWs first chunks ⊆ chunks := by
  cases chunks with
  | nil => exact fun x hx => hx
  | cons c cs =>
    simp only [dropLeadingWs]
    split
    · exact List.subset_cons_self c cs
    · exact fun x hx => hx

/-- Soundness of one wrapping iteration: when every non-whitespace chunk
fits the width, every chunk placed on the line and every remaining chunk
is whitespace or one of the original chunks — the long-word split can only
ever cut a whitespace run. -/
lemma wrapStep_sound (width : Nat) (first : Bool) (chunks : List Chunk)
    (hlen : ∀ c ∈ chunks, wsChunk c = false → c.length ≤ width) :
    (∀ c ∈ (wrapStep width first chunks).1, wsChunk c = true ∨ c ∈ chunks) ∧
    (∀ c ∈ (wrapStep width first chunks).2, wsChunk c = true ∨ c ∈ chunks) := by
  simp only [wrapStep]
  have sub1 : dropLeadingWs first chunks ⊆ chunks := dropLeadingWs_subset first chunks
  have t1 : (takeFits width 0 (dropLeadingWs first chunks)).1 ⊆ chunks :=
    fun x hx => sub1 (takeFits_subset_left _ _ _ hx)
  have t2 : (takeFits width 0 (dropLeadingWs first chunks)).2 ⊆ chunks :=
    fun x hx => sub1 (takeFits_subset_right _ _ _ hx)
  cases hrest : (takeFits width 0 (dropLeadingWs first chunks)).2 with
  | nil =>
    simp only [splitLong]
    constructor
    · intro c hc
      exact Or.inr (t1 (dropTrailingWs_subset _ hc))
    · intro c hc
      cases hc
  | cons e es =>
    have he : e ∈ chunks := t2 (hrest ▸ List.mem_cons_self e es)
    have hes : ∀ x ∈ es, x ∈ chunks := fun x hx => t2 (hrest ▸ List.mem_cons_of_mem e hx)
    simp only [splitLong]
    split
    next hlong =>
      have hwse : wsChunk e = true := by
        cases hws : wsChunk e with
        | true => rfl
        | false => exact absurd (hlen e he hws) (by omega)
      constructor
      · intro c hc
        have hc' := dropTrailingWs_subset _ hc
        rcases List.mem_append.mp hc' with h | h
        · exact Or.inr (t1 h)
        · have : c = e.take (width - ((takeFits width 0 (dropLeadingWs first chunks)).1.map List.length).sum) := by
            simpa using h
          exact Or.inl (this ▸ wsChunk_take e _ hwse)
      · intro c hc
        rcases List.mem_cons.mp hc with h | h
        · exact Or.inl (h ▸ wsChunk_drop e _ hwse)
        · exact Or.inr (hes c h)
    next hshort =>
      constructor
      · intro c hc
        exact Or.inr (t1 (dropTrailingWs_subset _ hc))
      · intro c hc
        rcases List.mem_cons.mp hc with h | h
        · exact Or.inr (h ▸ he)
        · exact Or.inr (hes c h)

/-- Soundness of the whole wrapping loop, for any fuel: when every
non-whitespace chunk satisfies P and fits the width, every chunk of every
emitted line is whitespace or satisfies P. -/
lemma wrapLoopF_sound (width : Nat) (P : Chunk → Prop) :
    ∀ (fuel : Nat) (first : Bool) (chunks : List Chunk),
      (∀ c ∈ chunks, wsChunk c = false → P c) →
      (∀ c ∈ chunks, wsChunk c = false → c.length ≤ width) →
      ∀ line ∈ wrapLoopF width fuel first chunks, ∀ c ∈ line,
        wsChunk c = true ∨ P c := by
  intro fuel
  induction fuel with
  | zero =>
    intro first chunks _ _ line hline
    simp [wrapLoopF] at hline
  | succ n ih =>
    intro first chunks hP hlen line hline c hc
    cases chunks with
    | nil => simp [wrapLoopF] at hline
    | cons d ds =>
      simp only [wrapLoopF] at hline
      have hs := wrapStep_sound width first (d :: ds) hlen
      have hP2 : ∀ x ∈ (wrapStep width first (d :: ds)).2, wsChunk x = false → P x := by
        intro x hx hws
        rcases hs.2 x hx with h | h
        · rw [h] at hws; cases hws
        · exact hP x h hws
      have hlen2 : ∀ x ∈ (wrapStep width first (d :: ds)).2,
          wsChunk x = false → x.length ≤ width := by
        intro x hx hws
        rcases hs.2 x hx with h | h
        · rw [h] at hws; cases hws
        · exact hlen x h hws
      by_cases hemp : (wrapStep width first (d :: ds)).1.isEmpty
      · rw [if_pos hemp] at hline
        exact ih first _ hP2 hlen2 line hline c hc
      · rw [if_neg hemp] at hline
        rcases List.mem_cons.mp hline with h | h
        · subst h
          rcases hs.1 c hc with hws | hmem
          · exact Or.inl hws
          · cases hws : wsChunk c with
            | true => exact Or.inl rfl
            | false => exact Or.inr (hP c hmem hws)
        · exact ih false _ hP2 hlen2 line h c hc

/-- chunkCost distributes over append. -/
lemma chunkCost_append (l1 l2 : List Chunk) :
    chunkCost (l1 ++ l2) = chunkCost l1 + chunkCost l2 := by
  simp [chunkCost]

/-- takeFits splits the cost of its input between line and rest. -/
lemma takeFits_cost (width curLen : Nat) (cs : List Chunk) :
    chunkCost (takeFits width curLen cs).1 + chunkCost (takeFits width curLen cs).2
      = chunkCost cs := by
  rw [← chunkCost_append, takeFits_append]

/-- The long-word split never increases the cost of the remaining chunks. -/
lemma splitLong_cost (width curLen : Nat) (cur rest : List Chunk) :
    chunkCost (splitLong width curLen cur rest).2 ≤ chunkCost rest := by
  cases rest with
  | nil => simp [splitLong]
  | cons c cs =>
    simp only [splitLong]
    split
    · simp only [chunkCost, List.map_cons, List.sum_cons, List.length_drop]
      omega
    · exact Nat.le_refl _

/-- Every wrapping iteration on a non-empty chunk list strictly decreases
chunkCost when the width is positive: the iteration drops a leading
whitespace chunk, moves at least one chunk onto the line, or chops at
least one character off an over-long front chunk. -/
lemma wrapStep_cost (width : Nat) (hw : 0 < width) (first : Bool)
    (d : Chunk) (ds : List Chunk) :
    chunkCost (wrapStep width first (d :: ds)).2 < chunkCost (d :: ds) := by
  simp only [wrapStep]
  have hcost_cons : chunkCost (d :: ds) = d.length + 1 + chunkCost ds := by
    simp [chunkCost]
  by_cases hdrop : (wsChunk d && !first) = true
  · have h1 : dropLeadingWs first (d :: ds) = ds := by
      simp [dropLeadingWs, hdrop]
    rw [h1]
    have h2 := splitLong_cost width
      (((takeFits width 0 ds).1.map List.length).sum)
      (takeFits width 0 ds).1 (takeFits width 0 ds).2
    have h3 := takeFits_cost width 0 ds
    omega
  · have h1 : dropLeadingWs first (d :: ds) = d :: ds := by
      simp only [dropLeadingWs]
      rw [if_neg hdrop]
    rw [h1]
    cases hp : (takeFits width 0 (d :: ds)).1 with
    | nil =>
      have hp2 : (takeFits width 0 (d :: ds)).2 = d :: ds := by
        have happ := takeFits_append width 0 (d :: ds)
        rw [hp] at happ
        simpa using happ
      have hdl : width < d.length := by
        by_contra hle
        push_neg at hle
        simp only [takeFits] at hp
        rw [if_pos (by omega)] at hp
        simp at hp
      rw [hp2]
      simp only [splitLong]
      rw [if_pos hdl]
      simp only [chunkCost, List.map_cons, List.sum_cons, List.length_drop,
        List.map_nil, List.sum_nil]
      omega
    | cons e es =>
      have hsum := takeFits_cost width 0 (d :: ds)
      rw [hp] at hsum
      have hone : 1 ≤ chunkCost (e :: es) := by
        simp only [chunkCost, List.map_cons, List.sum_cons]
        omega
      have h2 := splitLong_cost width ((((e :: es) : List Chunk).map List.length).sum)
        (e :: es) (takeFits width 0 (d :: ds)).2
      omega

/-- wrapLoopF ignores its fuel on an empty chunk list. -/
lemma wrapLoopF_nil (width fuel : Nat) (first : Bool) :
    wrapLoopF width fuel first [] = [] := by
  cases fuel <;> rfl

/-- Fuel adequacy: for a positive width, any fuel of at least chunkCost of
the chunks yields the same lines, so the loop has converged at the fuel
wrapChunkLines supplies and the fuel encoding is faithful to textwrap's
unbounded while loop. -/
lemma wrapLoopF_fuel_irrelevant (width : Nat) (hw : 0 < width) :
    ∀ (fuel fuel' : Nat) (first : Bool) (chunks : List Chunk),
      chunkCost chunks ≤ fuel → chunkCost chunks ≤ fuel' →
      wrapLoopF width fuel first chunks = wrapLoopF width fuel' first chunks := by
  intro fuel
  induction fuel with
  | zero =>
    intro fuel' first chunks h h'
    cases chunks with
    | nil => rw [wrapLoopF_nil, wrapLoopF_nil]
    | cons d ds =>
      exfalso
      have : 1 ≤ chunkCost (d :: ds) := by
        simp [chunkCost]
        omega
      omega
  | succ n ih =>
    intro fuel' first chunks h h'
    cases chunks with
    | nil => rw [wrapLoopF_nil, wrapLoopF_nil]
    | cons d ds =>
      cases fuel' with
      | zero =>
        exfalso
        have : 1 ≤ chunkCost (d :: ds) := by
          simp [chunkCost]
          omega
        omega
      | succ m =>
        have hc := wrapStep_cost width hw first d ds
        simp only [wrapLoopF]
        by_cases hemp : (wrapStep width first (d :: ds)).1.isEmpty
        · rw [if_pos hemp, if_pos hemp]
          exact ih m first _ (by omega) (by omega)
        · rw [if_neg hemp, if_neg hemp]
          rw [ih m false _ (by omega) (by omega)]

/-- Extra fuel beyond chunkCost changes nothing in wrapChunkLines. -/
lemma wrapChunkLines_fuel_adequate (width : Nat) (hw : 0 < width)
    (text : List Char) (extra : Nat) :
    wrapLoopF width (chunkCost (splitRuns text) + extra) true (splitRuns text)
      = wrapChunkLines width text := by
  unfold wrapChunkLines
  exact wrapLoopF_fuel_irrelevant width hw _ _ true _ (by omega) (Nat.le_refl _)

/-- C7 amended: wrap_text breaks only at word boundaries for every text all
of whose words fit within the per-line character budget; a word longer
than the budget is the one case textwrap's break_long_words default splits
mid-word. -/
theorem caption_wrap_no_split_within_budget (text : List Char) (budget : Nat)
    (hw : ∀ w_ ∈ textWords text, w_.length ≤ budget) :
    linesRespectWords text budget := by
  intro line hline c hc
  have base1 : ∀ x ∈ splitRuns text, wsChunk x = false → x ∈ textWords text := by
    intro x hx hws
    simp [textWords, List.mem_filter, hx, hws]
  have base2 : ∀ x ∈ splitRuns text, wsChunk x = false → x.length ≤ budget :=
    fun x hx hws => hw x (base1 x hx hws)
  exact wrapLoopF_sound budget (fun x => x ∈ textWords text) _ true
    (splitRuns text) base1 base2 line hline c hc

/-- Witness for the amended C7 on a two-word caption at budget 25. -/
theorem caption_wrap_no_split_within_budget_witness :
    (∀ w_ ∈ textWords (String.data "hello world"), w_.length ≤ 25) ∧
      linesRespectWords (String.data "hello world") 25 :=
  ⟨by decide, caption_wrap_no_split_within_budget _ 25 (by decide)⟩

/-- C9 amended: wrap_text is total (pure, deterministic, returning a value)
for every text whenever the target width is at least 15 pixels, so the
character budget is at least 1, and on empty text it returns empty wrapped
text with the default font size; for narrower widths the budget is 0 and
textwrap.fill raises ValueError. -/
theorem wrap_text_total_on_wide_frames (text : List Char) (img_clip_width : Nat)
    (hw : 15 ≤ img_clip_width) :
    (∃ r, wrap_text text img_clip_width = Except.ok r) ∧
      wrap_text [] img_clip_width = Except.ok ([], 50) := by
  have hb : max_chars_per_line img_clip_width ≠ 0 := by
    unfold max_chars_per_line
    have : 1 ≤ img_clip_width / 15 := (Nat.one_le_div_iff (by norm_num)).mpr hw
    omega
  constructor
  · unfold wrap_text textwrap_fill
    rw [if_neg hb]
    exact ⟨_, rfl⟩
  · unfold wrap_text textwrap_fill
    rw [if_neg hb]
    rfl

/-- Witness for the amended C9 at a 270-pixel width. -/
theorem wrap_text_total_on_wide_frames_witness :
    15 ≤ 270 ∧ ((∃ r, wrap_text (String.data "hi") 270 = Except.ok r) ∧
      wrap_text [] 270 = Except.ok ([], 50)) :=
  ⟨by norm_num, wrap_text_total_on_wide_frames _ 270 (by norm_num)⟩

/-! ## Cross-checks of the textwrap embedding against CPython's textwrap

Each equality below reproduces the output of CPython 3.11's
textwrap.fill on the same input, including the corner cases that exercise
the long-word split and the once-only trailing-whitespace drop. -/

example : textwrap_fill 18 (String.data "uninterrupted spans of timeline history!")
    = .ok (String.data "uninterrupted\nspans of timeline\nhistory!") := by decide

example : textwrap_fill 5 (String.data "abcd efghijk")
    = .ok (String.data "abcd \nefghi\njk") := by decide

example : textwrap_fill 25 (String.data "aaaaaaaaaaaaaaaaaaaaaaaaaaaaaa")
    = .ok (String.data "aaaaaaaaaaaaaaaaaaaaaaaaa\naaaaa") := by decide

example : textwrap_fill 10 (String.data "ab cdefghijklmn")
    = .ok (String.data "ab cdefghi\njklmn") := by decide

example : textwrap_fill 10 (String.data "hello world this is a fine test")
    = .ok (String.data "hello\nworld this\nis a fine\ntest") := by decide

example : wrap_text (String.data "uninterrupted spans of timeline history!") 270
    = .ok (String.data "uninterrupted\nspans of timeline\nhistory!", 50) := by decide

end Cronologia
